import Mathlib

/-!
Verification of the macOS app-usage tracker: a shallow embedding of the
tracking state machine (main.js, class AppUsageTracker) and the usage
store (database.js, class Database), with theorems about switch
detection, attribution, aggregation and formatting.

Time is modelled in epoch milliseconds. JavaScript truthiness of the
nullable string field currentApp is modelled explicitly (null and the
empty string are falsy); Date objects and interval handles are always
truthy, so they are modelled by Option with truthiness = isSome.
-/

/-! ## Usage store (database.js) -/

/-- Source: database.js, Database.formatDuration.  The JS template
literal is modelled as explicit string concatenation. -/
def formatDuration (seconds : Nat) : String :=
  let hours := seconds / 3600
  let minutes := (seconds % 3600) / 60
  let remainingSeconds := seconds % 60
  if hours > 0 then
    toString hours ++ "h " ++ toString minutes ++ "m " ++ toString remainingSeconds ++ "s"
  else if minutes > 0 then
    toString minutes ++ "m " ++ toString remainingSeconds ++ "s"
  else
    toString remainingSeconds ++ "s"

/-- Two-digit zero padding, as produced inside an ISO date string. -/
def pad2 (n : Nat) : String :=
  if n < 10 then "0" ++ toString n else toString n

/-- Civil (proleptic Gregorian) date from a count of days since
1970-01-01, the classic era-based algorithm, with floor division. -/
def civilFromDays (z0 : Int) : Int × Nat × Nat :=
  let z := z0 + 719468
  let era : Int := Int.fdiv z 146097
  let doe : Nat := (Int.emod z 146097).toNat
  let yoe : Nat := (doe - doe / 1460 + doe / 36524 - doe / 146096) / 365
  let y : Int := (yoe : Int) + era * 400
  let doy : Nat := doe - (365 * yoe + yoe / 4 - yoe / 100)
  let mp : Nat := (5 * doy + 2) / 153
  let d : Nat := doy - (153 * mp + 2) / 5 + 1
  let m : Nat := if mp < 10 then mp + 3 else mp - 9
  (if m ≤ 2 then y + 1 else y, m, d)

/-- The date part of `new Date(ms).toISOString()`: the UTC calendar
date of the instant, formatted YYYY-MM-DD.  Source: database.js line 37,
`new Date().toISOString().split('T')[0]`. -/
def isoDateOfMs (ms : Int) : String :=
  let c := civilFromDays (Int.fdiv ms 86400000)
  toString c.1 ++ "-" ++ pad2 c.2.1 ++ "-" ++ pad2 c.2.2

/-- Modelled from the spec: "date: calendar date string in the
tracker's local timezone, format YYYY-MM-DD".  The local calendar date
of an instant, for a timezone `offsetMs` milliseconds ahead of UTC.
This is the spec-side definition, to be compared with the code-side
`isoDateOfMs` used by `logUsage`. -/
def localDateOfMs (ms offsetMs : Int) : String :=
  isoDateOfMs (ms + offsetMs)

/-- One persisted row of the usage_logs table (the columns the queries
read).  Source: database.js, CREATE TABLE usage_logs. -/
structure UsageRow where
  appName : String
  durationSeconds : Nat
  date : String
  deriving DecidableEq

/-- Source: database.js, Database.logUsage.  Inserts one row whose date
column is the date part of `toISOString()` at the current instant. -/
def logUsage (store : List UsageRow) (appName : String) (durationSeconds : Nat)
    (nowMs : Int) : List UsageRow :=
  store ++ [⟨appName, durationSeconds, isoDateOfMs nowMs⟩]

/-- The WHERE clause selected by the period switch in
Database.getUsageStats: exact date match for today/yesterday (and the
default branch), string `>=` for week, no filter for all. -/
def periodFilter (period today yesterday weekAgo : String) (r : UsageRow) : Bool :=
  if period = "today" then r.date == today
  else if period = "yesterday" then r.date == yesterday
  else if period = "week" then decide (weekAgo ≤ r.date)
  else if period = "all" then true
  else r.date == today

/-- One row of the grouped query result: GROUP BY app_name with
SUM(duration_seconds) and COUNT(*). -/
structure AggRow where
  appName : String
  totalSeconds : Nat
  sessionCount : Nat
  deriving DecidableEq

/-- Accumulate one usage row into the grouped rows (first-occurrence
order, as GROUP BY accumulation). -/
def addRow (acc : List AggRow) (r : UsageRow) : List AggRow :=
  match acc with
  | [] => [⟨r.appName, r.durationSeconds, 1⟩]
  | a :: rest =>
      if a.appName = r.appName then
        ⟨a.appName, a.totalSeconds + r.durationSeconds, a.sessionCount + 1⟩ :: rest
      else a :: addRow rest r

/-- GROUP BY app_name over the filtered rows. -/
def groupRows (rows : List UsageRow) : List AggRow :=
  rows.foldl addRow []

/-- The ORDER BY total_seconds DESC relation. -/
def aggGe (a b : AggRow) : Prop :=
  b.totalSeconds ≤ a.totalSeconds

instance : DecidableRel aggGe := fun a b => Nat.decLe b.totalSeconds a.totalSeconds

instance : IsTotal AggRow aggGe :=
  ⟨fun a b => Nat.le_total b.totalSeconds a.totalSeconds⟩

instance : IsTrans AggRow aggGe :=
  ⟨fun _ _ _ hab hbc => Nat.le_trans hbc hab⟩

/-- ORDER BY total_seconds DESC, as a stable sort. -/
def sortDesc (l : List AggRow) : List AggRow :=
  List.insertionSort aggGe l

/-- `Math.round((ts / total) * 100)` for natural `ts` and positive
natural `total`, modelled as exact rational round-half-up:
`⌊100 * ts / total + 1/2⌋`. -/
def jsRound100 (ts total : Nat) : Nat :=
  (200 * ts + total) / (2 * total)

/-- One formatted row of the getUsageStats response. -/
structure AppStat where
  appName : String
  totalSeconds : Nat
  sessionCount : Nat
  totalTime : String
  percentage : Nat
  deriving DecidableEq

/-- The getUsageStats response object. -/
structure UsageStats where
  apps : List AppStat
  totalTime : String
  totalSeconds : Nat
  period : String
  deriving DecidableEq

/-- The db.all callback of Database.getUsageStats: given the grouped
and sorted query rows, compute the grand total by reduce, format each
row, attach the rounded percentage (0 when the total is 0), and build
the response object. -/
def presentStats (sorted : List AggRow) (period : String) : UsageStats :=
  let totalTime := sorted.foldl (fun sum row => sum + row.totalSeconds) 0
  { apps := sorted.map fun row =>
      { appName := row.appName
        totalSeconds := row.totalSeconds
        sessionCount := row.sessionCount
        totalTime := formatDuration row.totalSeconds
        percentage := if totalTime > 0 then jsRound100 row.totalSeconds totalTime else 0 }
    totalTime := formatDuration totalTime
    totalSeconds := totalTime
    period := period }

/-- Source: database.js, Database.getUsageStats: the SQL query
(filter + group + descending stable sort, over dates derived from the
current instant `nowMs` exactly as in the source) followed by the
db.all callback `presentStats`. -/
def getUsageStats (rows : List UsageRow) (period : String) (nowMs : Int) : UsageStats :=
  let today := isoDateOfMs nowMs
  let yesterday := isoDateOfMs (nowMs - 24 * 60 * 60 * 1000)
  let weekAgo := isoDateOfMs (nowMs - 7 * 24 * 60 * 60 * 1000)
  presentStats
    (sortDesc (groupRows (rows.filter (periodFilter period today yesterday weekAgo))))
    period

/-- Sum of the totalSeconds column of grouped rows. -/
def sumAgg (l : List AggRow) : Nat :=
  (l.map AggRow.totalSeconds).sum

/-- Sum of the totalSeconds fields of formatted app stats. -/
def sumApps (l : List AppStat) : Nat :=
  (l.map AppStat.totalSeconds).sum

/-! ## Tracking state machine (main.js) -/

/-- JavaScript truthiness of the nullable string `this.currentApp`:
null and the empty string are falsy. -/
def jsTruthy : Option String → Bool
  | none => false
  | some s => !s.isEmpty

/-- One call `this.db.logUsage(appName, durationSeconds)` made by the
tracker. -/
structure LogCall where
  appName : String
  durationSeconds : Nat
  deriving DecidableEq

/-- The mutable fields of AppUsageTracker that the tracking logic
touches, plus the set of live interval handles of the host scheduler
(`tasks`) and a fresh-handle counter, so that scheduled-task creation
and cancellation are observable.  Source: main.js, constructor. -/
structure TrackerState where
  currentApp : Option String
  currentAppStartTime : Option Nat
  trackingInterval : Option Nat
  isTracking : Bool
  tasks : List Nat
  nextHandle : Nat
  deriving DecidableEq

/-- The freshly constructed tracker: no current app, no interval, not
tracking. -/
def initialState : TrackerState :=
  { currentApp := none
    currentAppStartTime := none
    trackingInterval := none
    isTracking := false
    tasks := []
    nextHandle := 1 }

/-- Source: main.js, AppUsageTracker.trackCurrentApp, one successful
probe sample returning `appName` at instant `now` (ms).  `writeOk`
tells whether the store write succeeds; a rejected write throws into
the surrounding catch, so the remainder of the body (including the
switch bookkeeping) is skipped and the state is left unchanged.
Returns the new state and the store writes made. -/
def trackCurrentApp (writeOk : Bool) (s : TrackerState) (appName : String)
    (now : Nat) : TrackerState × List LogCall :=
  let attempted : Option (List LogCall) :=
    if jsTruthy s.currentApp = true ∧ s.currentApp ≠ some appName then
      let usageTime := (now - s.currentAppStartTime.getD 0) / 1000
      if usageTime > 0 then
        if writeOk then some [⟨s.currentApp.getD "", usageTime⟩]
        else none
      else some []
    else some []
  match attempted with
  | none => (s, [])
  | some w =>
      if s.currentApp ≠ some appName then
        ({ s with currentApp := some appName, currentAppStartTime := some now }, w)
      else (s, w)

/-- A run of successful probe samples `(appName, time)` through the
polling loop, collecting the store writes in order. -/
def runSamples (s : TrackerState) (samples : List (String × Nat)) :
    TrackerState × List LogCall :=
  match samples with
  | [] => (s, [])
  | (a, t) :: rest =>
      let step := trackCurrentApp true s a t
      let next := runSamples step.1 rest
      (next.1, step.2 ++ next.2)

/-- Source: main.js, AppUsageTracker.startTracking.  No-op when
already tracking; otherwise sets isTracking, performs the initial
sample, and schedules the recurring interval (a fresh live task). -/
def startTracking (s : TrackerState) (sample : String × Nat) :
    TrackerState × List LogCall :=
  if s.isTracking then (s, [])
  else
    let s1 := { s with isTracking := true }
    let step := trackCurrentApp true s1 sample.1 sample.2
    let h := step.1.nextHandle
    ({ step.1 with
        trackingInterval := some h
        tasks := step.1.tasks ++ [h]
        nextHandle := h + 1 }, step.2)

/-- Source: main.js, AppUsageTracker.stopTracking.  No-op when not
tracking; otherwise clears isTracking, cancels the interval, and
flushes a final attribution for the current app when at least one
whole second has elapsed.  It does not clear currentApp or
currentAppStartTime. -/
def stopTracking (s : TrackerState) (now : Nat) : TrackerState × List LogCall :=
  if s.isTracking = false then (s, [])
  else
    let s1 := { s with isTracking := false }
    let s2 :=
      match s1.trackingInterval with
      | some h => { s1 with tasks := s1.tasks.erase h, trackingInterval := none }
      | none => s1
    if jsTruthy s.currentApp = true ∧ s.currentAppStartTime.isSome then
      let usageTime := (now - s.currentAppStartTime.getD 0) / 1000
      if usageTime > 0 then (s2, [⟨s.currentApp.getD "", usageTime⟩])
      else (s2, [])
    else (s2, [])

/-! ## Step lemmas for the state machine -/

/-- A sample with no current app sets the bookkeeping and writes
nothing. -/
theorem track_fresh (w : Bool) (s : TrackerState) (a : String) (t : Nat)
    (h : s.currentApp = none) :
    trackCurrentApp w s a t =
      ({ s with currentApp := some a, currentAppStartTime := some t }, []) := by
  simp [trackCurrentApp, jsTruthy, h]

/-- A sample repeating the current app changes nothing and writes
nothing. -/
theorem track_same (w : Bool) (s : TrackerState) (a : String) (t : Nat)
    (h : s.currentApp = some a) :
    trackCurrentApp w s a t = (s, []) := by
  simp [trackCurrentApp, h]

/-- A non-empty string is not isEmpty. -/
theorem isEmpty_false_of_ne (p : String) (hpe : p ≠ "") : p.isEmpty = false := by
  cases hq : p.isEmpty with
  | false => rfl
  | true => exact absurd ((String.isEmpty_iff p).mp hq) hpe

/-- A detected switch with at least one whole elapsed second and a
successful write: one attribution for the outgoing app, bookkeeping
moved to the new app. -/
theorem track_switch (s : TrackerState) (p a : String) (t0 t : Nat)
    (hp : s.currentApp = some p) (hpe : p ≠ "") (hne : p ≠ a)
    (hst : s.currentAppStartTime = some t0) (hel : 0 < (t - t0) / 1000) :
    trackCurrentApp true s a t =
      ({ s with currentApp := some a, currentAppStartTime := some t },
       [⟨p, (t - t0) / 1000⟩]) := by
  simp [trackCurrentApp, jsTruthy, hp, hst, hel, hne, isEmpty_false_of_ne p hpe]

/-- A detected switch whose elapsed time floors to zero: no write, but
the bookkeeping still moves to the new app. -/
theorem track_switch_zero (w : Bool) (s : TrackerState) (p a : String) (t0 t : Nat)
    (hp : s.currentApp = some p) (hne : p ≠ a)
    (hst : s.currentAppStartTime = some t0) (hel : (t - t0) / 1000 = 0) :
    trackCurrentApp w s a t =
      ({ s with currentApp := some a, currentAppStartTime := some t }, []) := by
  simp [trackCurrentApp, jsTruthy, hp, hst, hel, hne]

/-- A detected switch whose store write fails: the rejection is caught
and the whole sample aborts with the state unchanged. -/
theorem track_switch_fail (s : TrackerState) (p a : String) (t0 t : Nat)
    (hp : s.currentApp = some p) (hpe : p ≠ "") (hne : p ≠ a)
    (hst : s.currentAppStartTime = some t0) (hel : 0 < (t - t0) / 1000) :
    trackCurrentApp false s a t = (s, []) := by
  simp [trackCurrentApp, jsTruthy, hp, hst, hel, hne, isEmpty_false_of_ne p hpe]

/-- A sample never changes isTracking. -/
theorem track_isTracking (w : Bool) (s : TrackerState) (a : String) (t : Nat) :
    (trackCurrentApp w s a t).1.isTracking = s.isTracking := by
  unfold trackCurrentApp
  dsimp only
  split
  · rfl
  · split <;> rfl

/-- A sample never changes the live scheduled tasks. -/
theorem track_tasks (w : Bool) (s : TrackerState) (a : String) (t : Nat) :
    (trackCurrentApp w s a t).1.tasks = s.tasks := by
  unfold trackCurrentApp
  dsimp only
  split
  · rfl
  · split <;> rfl

/-- startTracking is a no-op when already tracking. -/
theorem start_noop (s : TrackerState) (x : String × Nat) (h : s.isTracking = true) :
    startTracking s x = (s, []) := by
  simp [startTracking, h]

/-- A run of samples all naming the same app writes nothing, from any
state whose current app is unset or already that app. -/
theorem runSamples_no_switch (a : String) (samples : List (String × Nat)) :
    ∀ s : TrackerState, (∀ p ∈ samples, p.1 = a) →
      (s.currentApp = none ∨ s.currentApp = some a) →
      (runSamples s samples).2 = [] := by
  induction samples with
  | nil => intro s _ _; rfl
  | cons hd rest ih =>
      intro s hall hs
      obtain ⟨b, t⟩ := hd
      have hb : b = a := hall (b, t) (by simp)
      subst hb
      have hrest : ∀ p ∈ rest, p.1 = b := fun p hp => hall p (by simp [hp])
      cases hs with
      | inl h =>
          simp only [runSamples, track_fresh true s b t h, List.nil_append]
          exact ih _ hrest (Or.inr rfl)
      | inr h =>
          simp only [runSamples, track_same true s b t h, List.nil_append]
          exact ih _ hrest (Or.inr h)

/-! ## Claims about the tracking state machine -/

/-- C1 (counterexample): with pairwise-distinct non-empty app names
but sample instants less than one whole second apart, the sequence
[A, A, B, B, C] produces zero attributions, not two: both elapsed
durations floor to zero, so both writes are skipped. -/
theorem c1_counterexample :
    (runSamples initialState [("A", 0), ("A", 200), ("B", 400), ("B", 600), ("C", 800)]).2
        = [] ∧
    ([] : List LogCall).length ≠ 2 := by
  constructor
  · decide
  · decide

/-- C1 (amended): for the probe-sample sequence [A, A, B, B, C] at
instants t0..t4 from the fresh tracker, with A, B, C distinct app
names (non-empty, as OS-reported app names are), and provided each of
the two floored elapsed durations is at least one whole second,
exactly two attributions are written: (A, ⌊(t2-t0)/1000⌋) followed by
(B, ⌊(t4-t2)/1000⌋), in that order. -/
theorem c1_two_attributions (A B C : String) (t0 t1 t2 t3 t4 : Nat)
    (hA : A ≠ "") (hB : B ≠ "") (hAB : A ≠ B) (hBC : B ≠ C)
    (h20 : 0 < (t2 - t0) / 1000) (h42 : 0 < (t4 - t2) / 1000) :
    (runSamples initialState [(A, t0), (A, t1), (B, t2), (B, t3), (C, t4)]).2 =
      [⟨A, (t2 - t0) / 1000⟩, ⟨B, (t4 - t2) / 1000⟩] := by
  have e1 : trackCurrentApp true initialState A t0 =
      ({ initialState with currentApp := some A, currentAppStartTime := some t0 }, []) :=
    track_fresh true initialState A t0 rfl
  have e2 : trackCurrentApp true
      { initialState with currentApp := some A, currentAppStartTime := some t0 } A t1 =
      ({ initialState with currentApp := some A, currentAppStartTime := some t0 }, []) :=
    track_same true _ A t1 rfl
  have e3 : trackCurrentApp true
      { initialState with currentApp := some A, currentAppStartTime := some t0 } B t2 =
      ({ initialState with currentApp := some B, currentAppStartTime := some t2 },
       [⟨A, (t2 - t0) / 1000⟩]) :=
    track_switch _ A B t0 t2 rfl hA hAB rfl h20
  have e4 : trackCurrentApp true
      { initialState with currentApp := some B, currentAppStartTime := some t2 } B t3 =
      ({ initialState with currentApp := some B, currentAppStartTime := some t2 }, []) :=
    track_same true _ B t3 rfl
  have e5 : trackCurrentApp true
      { initialState with currentApp := some B, currentAppStartTime := some t2 } C t4 =
      ({ initialState with currentApp := some C, currentAppStartTime := some t4 },
       [⟨B, (t4 - t2) / 1000⟩]) :=
    track_switch _ B C t2 t4 rfl hB hBC rfl h42
  simp [runSamples, e1, e2, e3, e4, e5]

/-- C1 (witness): concrete five-second polling run. -/
theorem c1_witness :
    (runSamples initialState
      [("Safari", 0), ("Safari", 5000), ("Chrome", 10000),
       ("Chrome", 15000), ("Mail", 20000)]).2 =
      [⟨"Safari", 10⟩, ⟨"Chrome", 10⟩] :=
  c1_two_attributions "Safari" "Chrome" "Mail" 0 5000 10000 15000 20000
    (by decide) (by decide) (by decide) (by decide) (by decide) (by decide)

/-- C2: stop() during a session tracking X since t0, called at t1,
flushes exactly one final attribution (X, ⌊(t1-t0)/1000⌋) when at
least one whole second elapsed, flushes nothing when t1 = t0, and in
both cases cancels the scheduled polling task and clears isTracking. -/
theorem c2_stop_final_flush (s : TrackerState) (X : String) (t0 t1 h : Nat)
    (hTr : s.isTracking = true) (hApp : s.currentApp = some X) (hX : X ≠ "")
    (hSt : s.currentAppStartTime = some t0) (hTi : s.trackingInterval = some h)
    (hTasks : s.tasks = [h]) :
    (0 < (t1 - t0) / 1000 → (stopTracking s t1).2 = [⟨X, (t1 - t0) / 1000⟩]) ∧
    (t1 = t0 → (stopTracking s t1).2 = []) ∧
    (stopTracking s t1).1.isTracking = false ∧
    (stopTracking s t1).1.trackingInterval = none ∧
    (stopTracking s t1).1.tasks = [] := by
  by_cases hpos : 0 < (t1 - t0) / 1000
  · have hstop : stopTracking s t1 =
        ({ s with isTracking := false, trackingInterval := none, tasks := [] },
         [⟨X, (t1 - t0) / 1000⟩]) := by
      simp [stopTracking, hTr, hApp, hSt, hTi, hTasks, jsTruthy,
        isEmpty_false_of_ne X hX, hpos]
    refine ⟨fun _ => by rw [hstop], fun h10 => ?_, by rw [hstop], by rw [hstop],
      by rw [hstop]⟩
    subst h10
    simp [Nat.sub_self] at hpos
  · have hstop : stopTracking s t1 =
        ({ s with isTracking := false, trackingInterval := none, tasks := [] }, []) := by
      simp [stopTracking, hTr, hApp, hSt, hTi, hTasks, jsTruthy,
        isEmpty_false_of_ne X hX, hpos]
    exact ⟨fun hx => absurd hx hpos, fun _ => by rw [hstop], by rw [hstop],
      by rw [hstop], by rw [hstop]⟩

/-- C2 (witness): tracking Safari since instant 0, stopped at 5000 ms. -/
theorem c2_witness :
    (stopTracking ⟨some "Safari", some 0, some 1, true, [1], 2⟩ 5000).2 = [⟨"Safari", 5⟩] ∧
    (stopTracking ⟨some "Safari", some 0, some 1, true, [1], 2⟩ 5000).1.isTracking = false ∧
    (stopTracking ⟨some "Safari", some 0, some 1, true, [1], 2⟩ 5000).1.tasks = [] := by
  have hc := c2_stop_final_flush ⟨some "Safari", some 0, some 1, true, [1], 2⟩
    "Safari" 0 5000 1 rfl rfl (by decide) rfl rfl rfl
  exact ⟨hc.1 (by decide), hc.2.2.1, hc.2.2.2.2⟩

/-- C3 (code evaluated at the failing input): a session tracking
Safari since instant 0 is stopped at 5000 ms; stopTracking clears
isTracking and the interval but leaves currentApp and
currentAppStartTime set, so the session state is not reset to empty
and a subsequent start() carries the previous current app over. -/
theorem c3_stop_does_not_clear_state :
    (stopTracking ⟨some "Safari", some 0, some 1, true, [1], 2⟩ 5000).1.currentApp
        = some "Safari" ∧
    (stopTracking ⟨some "Safari", some 0, some 1, true, [1], 2⟩ 5000).1.currentAppStartTime
        = some 0 ∧
    (stopTracking ⟨some "Safari", some 0, some 1, true, [1], 2⟩ 5000).1.isTracking
        = false := by
  decide

/-- C4 (counterexample): a switch from Safari to Chrome whose store
write fails leaves currentApp = some "Safari": the bookkeeping does
NOT proceed to the newly observed app, contrary to the claim. -/
theorem c4_counterexample :
    (trackCurrentApp false ⟨some "Safari", some 0, some 1, true, [1], 2⟩
        "Chrome" 5000).1.currentApp = some "Safari" ∧
    (some "Safari" : Option String) ≠ some "Chrome" := by
  decide

/-- C4 (amended): when a switch is detected (elapsed at least one
whole second) and the store write fails, the rejection propagates to
the catch block and the whole sample aborts: the state, including
currentApp and currentAppStartTime, is left exactly unchanged and
nothing is written; the switch is re-detected by the next successful
sample. -/
theorem c4_write_failure_preserves_state (s : TrackerState) (p a : String) (t0 t : Nat)
    (hp : s.currentApp = some p) (hpe : p ≠ "") (hne : p ≠ a)
    (hst : s.currentAppStartTime = some t0) (hel : 0 < (t - t0) / 1000) :
    trackCurrentApp false s a t = (s, []) :=
  track_switch_fail s p a t0 t hp hpe hne hst hel

/-- C4 (witness): failing write during a Safari→Chrome switch. -/
theorem c4_witness :
    trackCurrentApp false ⟨some "Safari", some 0, some 1, true, [1], 2⟩ "Chrome" 5000 =
      (⟨some "Safari", some 0, some 1, true, [1], 2⟩, []) :=
  c4_write_failure_preserves_state _ "Safari" "Chrome" 0 5000 rfl (by decide)
    (by decide) rfl (by decide)

/-- C5: a probe-sample sequence whose observed app name never changes
produces exactly zero store writes from the fresh tracker. -/
theorem c5_no_switch_no_writes (a : String) (samples : List (String × Nat))
    (h : ∀ p ∈ samples, p.1 = a) :
    (runSamples initialState samples).2 = [] :=
  runSamples_no_switch a samples initialState h (Or.inl rfl)

/-- C5 (witness): two Safari samples write nothing. -/
theorem c5_witness :
    (runSamples initialState [("Safari", 0), ("Safari", 5000)]).2 = [] :=
  c5_no_switch_no_writes "Safari" _ (by decide)

/-- C9: start() is idempotent: a call while already tracking returns
with the state unchanged and no writes; and starting from an idle
session with no live tasks, a second start() right after the first is
a no-op, isTracking stays true and exactly one scheduled task exists. -/
theorem c9_start_idempotent (s sT : TrackerState) (x y z : String × Nat)
    (hT : sT.isTracking = true) (hIdle : s.isTracking = false) (hTasks : s.tasks = []) :
    startTracking sT z = (sT, []) ∧
    startTracking (startTracking s x).1 y = ((startTracking s x).1, []) ∧
    (startTracking s x).1.isTracking = true ∧
    (startTracking s x).1.tasks.length = 1 := by
  have hR : (startTracking s x).1.isTracking = true := by
    simp [startTracking, hIdle, track_isTracking]
  refine ⟨start_noop sT z hT, start_noop _ y hR, hR, ?_⟩
  simp [startTracking, hIdle, track_tasks, hTasks]

/-- C9 (witness): double start from the fresh tracker. -/
theorem c9_witness :
    startTracking (startTracking initialState ("Safari", 0)).1 ("Chrome", 5000) =
      ((startTracking initialState ("Safari", 0)).1, []) ∧
    (startTracking initialState ("Safari", 0)).1.isTracking = true := by
  have hc := c9_start_idempotent initialState ⟨none, none, some 1, true, [1], 2⟩
    ("Safari", 0) ("Chrome", 5000) ("Mail", 1) rfl rfl rfl
  exact ⟨hc.2.1, hc.2.2.1⟩

/-! ## Lemmas about the store aggregation -/

/-- The reduce over grouped rows computes the sum of totalSeconds. -/
theorem foldl_add_totalSeconds (l : List AggRow) :
    ∀ n : Nat, l.foldl (fun sum row => sum + row.totalSeconds) n = n + sumAgg l := by
  induction l with
  | nil => intro n; simp [sumAgg]
  | cons a l ih => intro n; simp [sumAgg, ih, Nat.add_assoc]

/-- The descending sort is sorted for the ORDER BY relation. -/
theorem sortDesc_sorted (l : List AggRow) : List.Sorted aggGe (sortDesc l) :=
  List.sorted_insertionSort aggGe l

/-- Sorting preserves the sum of totalSeconds. -/
theorem sumAgg_sortDesc (l : List AggRow) : sumAgg (sortDesc l) = sumAgg l :=
  ((List.perm_insertionSort aggGe l).map AggRow.totalSeconds).sum_eq

/-- The response's totalSeconds is the sum over the grouped rows. -/
theorem presentStats_totalSeconds (L : List AggRow) (period : String) :
    (presentStats L period).totalSeconds = sumAgg L := by
  simp [presentStats, foldl_add_totalSeconds]

/-- The formatted rows carry the grouped rows' totalSeconds, so the
sums agree. -/
theorem presentStats_sumApps (L : List AggRow) (period : String) :
    sumApps (presentStats L period).apps = sumAgg L := by
  simp [presentStats, sumApps, sumAgg, List.map_map]
  rfl

/-- The formatted rows inherit the sort order of the grouped rows. -/
theorem presentStats_pairwise (L : List AggRow) (period : String)
    (hL : List.Sorted aggGe L) :
    List.Pairwise (fun a b => b.totalSeconds ≤ a.totalSeconds)
      (presentStats L period).apps := by
  simp only [presentStats]
  rw [List.pairwise_map]
  exact hL

/-- Every formatted row's percentage is the rounded share of the sum
of the grouped rows, and 0 when that sum is 0. -/
theorem presentStats_percentage (L : List AggRow) (period : String) (a : AppStat)
    (ha : a ∈ (presentStats L period).apps) :
    a.percentage = if sumAgg L = 0 then 0 else jsRound100 a.totalSeconds (sumAgg L) := by
  simp only [presentStats, List.mem_map] at ha
  obtain ⟨r, hr, rfl⟩ := ha
  by_cases hz : sumAgg L = 0
  · simp [presentStats, hz, foldl_add_totalSeconds]
  · simp [presentStats, hz, foldl_add_totalSeconds, Nat.pos_of_ne_zero hz]

/-! ## Claims about the usage store -/

/-- C6 (counterexample): at epoch instant 0 in a timezone 8 hours
behind UTC (offset -28800000 ms), logUsage inserts its row dated
"1970-01-01" (the UTC calendar date from toISOString), while the local
calendar date is "1969-12-31": the date field is not the current date
in the tracker's local timezone. -/
theorem c6_counterexample :
    logUsage [] "Safari" 5 0 = [⟨"Safari", 5, "1970-01-01"⟩] ∧
    localDateOfMs 0 (-28800000) = "1969-12-31" ∧
    ("1970-01-01" : String) ≠ "1969-12-31" := by
  refine ⟨?_, ?_, by decide⟩
  · decide
  · decide

/-- C6 (amended): every call logUsage(appName, durationSeconds)
inserts exactly one row — the existing rows are preserved and one row
is appended — whose date field is the current calendar date in UTC
(the toISOString date of the insertion instant), formatted
YYYY-MM-DD. -/
theorem c6_log_one_row_utc_date (store : List UsageRow) (appName : String)
    (durationSeconds : Nat) (nowMs : Int) :
    (logUsage store appName durationSeconds nowMs).length = store.length + 1 ∧
    (logUsage store appName durationSeconds nowMs).take store.length = store ∧
    (logUsage store appName durationSeconds nowMs).getLast? =
      some ⟨appName, durationSeconds, isoDateOfMs nowMs⟩ := by
  refine ⟨by simp [logUsage], ?_, ?_⟩
  · simp [logUsage, List.take_left]
  · simp [logUsage]

/-- C7: for every store contents and period, the apps sequence of
getUsageStats is sorted descending by totalSeconds, and each app's
percentage is round(100 * totalSeconds / grandTotal) — rational
round-half-up — where grandTotal is the sum of totalSeconds over all
returned apps, with percentage 0 for every app when grandTotal is 0. -/
theorem c7_sorted_and_percentages (rows : List UsageRow) (period : String) (nowMs : Int) :
    List.Pairwise (fun a b => b.totalSeconds ≤ a.totalSeconds)
      (getUsageStats rows period nowMs).apps ∧
    ∀ a ∈ (getUsageStats rows period nowMs).apps,
      a.percentage =
        if sumApps (getUsageStats rows period nowMs).apps = 0 then 0
        else jsRound100 a.totalSeconds (sumApps (getUsageStats rows period nowMs).apps) := by
  have hunf : getUsageStats rows period nowMs =
      presentStats
        (sortDesc (groupRows (rows.filter (periodFilter period (isoDateOfMs nowMs)
          (isoDateOfMs (nowMs - 24 * 60 * 60 * 1000))
          (isoDateOfMs (nowMs - 7 * 24 * 60 * 60 * 1000)))))) period := rfl
  rw [hunf]
  constructor
  · exact presentStats_pairwise _ period (sortDesc_sorted _)
  · intro a ha
    rw [presentStats_percentage _ period a ha, presentStats_sumApps]

/-- C7 (witness): with Safari 30s and Chrome 10s on one day, the head
app holds 75 percent of the 40s total. -/
theorem c7_witness :
    (⟨"Safari", 30, 1, "30s", 75⟩ : AppStat) ∈
      (getUsageStats [⟨"Safari", 30, "1970-01-01"⟩, ⟨"Chrome", 10, "1970-01-01"⟩]
        "all" 0).apps ∧
    (⟨"Safari", 30, 1, "30s", 75⟩ : AppStat).percentage =
      (if sumApps (getUsageStats [⟨"Safari", 30, "1970-01-01"⟩, ⟨"Chrome", 10, "1970-01-01"⟩]
          "all" 0).apps = 0 then 0
       else jsRound100 (⟨"Safari", 30, 1, "30s", 75⟩ : AppStat).totalSeconds
        (sumApps (getUsageStats [⟨"Safari", 30, "1970-01-01"⟩, ⟨"Chrome", 10, "1970-01-01"⟩]
          "all" 0).apps)) := by
  have hm : (⟨"Safari", 30, 1, "30s", 75⟩ : AppStat) ∈
      (getUsageStats [⟨"Safari", 30, "1970-01-01"⟩, ⟨"Chrome", 10, "1970-01-01"⟩]
        "all" 0).apps := by decide
  exact ⟨hm, (c7_sorted_and_percentages
    [⟨"Safari", 30, "1970-01-01"⟩, ⟨"Chrome", 10, "1970-01-01"⟩] "all" 0).2 _ hm⟩

/-- C8: formatDuration renders hours, minutes and seconds of its
argument per the spec's formula, and maps 0 to "0s", 65 to "1m 5s" and
3661 to "1h 1m 1s"; it is a plain function of its argument. -/
theorem c8_formatDuration_spec :
    (∀ n : Nat, formatDuration n =
      if n / 3600 > 0 then
        toString (n / 3600) ++ "h " ++ toString (n / 60 % 60) ++ "m " ++
          toString (n % 60) ++ "s"
      else if n / 60 % 60 > 0 then
        toString (n / 60 % 60) ++ "m " ++ toString (n % 60) ++ "s"
      else toString (n % 60) ++ "s") ∧
    formatDuration 0 = "0s" ∧ formatDuration 65 = "1m 5s" ∧
    formatDuration 3661 = "1h 1m 1s" := by
  refine ⟨fun n => ?_, rfl, rfl, rfl⟩
  have hm : n % 3600 / 60 = n / 60 % 60 := by omega
  simp only [formatDuration, hm]

/-- C10: for every store contents and period, the getUsageStats result
has totalSeconds equal to the sum of the returned apps' totalSeconds,
totalTime equal to formatDuration of totalSeconds, and the period
field verbatim; an unrecognized period is answered exactly like
"today" except for the verbatim period field. -/
theorem c10_result_invariants (rows : List UsageRow) (period : String) (nowMs : Int) :
    (getUsageStats rows period nowMs).totalSeconds
        = sumApps (getUsageStats rows period nowMs).apps ∧
    (getUsageStats rows period nowMs).totalTime
        = formatDuration (getUsageStats rows period nowMs).totalSeconds ∧
    (getUsageStats rows period nowMs).period = period ∧
    (period ≠ "today" → period ≠ "yesterday" → period ≠ "week" → period ≠ "all" →
      getUsageStats rows period nowMs =
        { getUsageStats rows "today" nowMs with period := period }) := by
  have hunf : getUsageStats rows period nowMs =
      presentStats
        (sortDesc (groupRows (rows.filter (periodFilter period (isoDateOfMs nowMs)
          (isoDateOfMs (nowMs - 24 * 60 * 60 * 1000))
          (isoDateOfMs (nowMs - 7 * 24 * 60 * 60 * 1000)))))) period := rfl
  refine ⟨?_, rfl, rfl, ?_⟩
  · rw [hunf, presentStats_totalSeconds, presentStats_sumApps]
  · intro h1 h2 h3 h4
    have hfilters : periodFilter period (isoDateOfMs nowMs)
        (isoDateOfMs (nowMs - 24 * 60 * 60 * 1000))
        (isoDateOfMs (nowMs - 7 * 24 * 60 * 60 * 1000)) =
        periodFilter "today" (isoDateOfMs nowMs)
        (isoDateOfMs (nowMs - 24 * 60 * 60 * 1000))
        (isoDateOfMs (nowMs - 7 * 24 * 60 * 60 * 1000)) :=
      funext fun r => by simp [periodFilter, h1, h2, h3, h4]
    rw [hunf, hfilters]
    rfl

/-- C10 (witness): the unrecognized period "month" is answered with
today's data, the period echoed verbatim. -/
theorem c10_witness :
    getUsageStats [⟨"Safari", 30, "1970-01-01"⟩] "month" 0 =
      { getUsageStats [⟨"Safari", 30, "1970-01-01"⟩] "today" 0 with period := "month" } :=
  (c10_result_invariants [⟨"Safari", 30, "1970-01-01"⟩] "month" 0).2.2.2
    (by decide) (by decide) (by decide) (by decide)
